import Mathlib

/-!
Verification development for the Prompt_Eval_Lab scoring pipeline.

The definitions below are a shallow embedding of the Python sources
src/metrics.py, src/evaluator.py and src/leaderboard.py.  Modelling
conventions, stated once here:

* Python float arithmetic is modelled exactly over the rationals `Rat`;
  decimal literals such as 0.3 become the rationals 3/10.
* Python str methods used by the code (strip, lower, split, startswith)
  are modelled over the character list of the string; lower and the
  whitespace predicate cover the ASCII range the repository data uses.
* Python dicts of scores are modelled as association lists, with
  dict.get(k, 0.0) becoming a total lookup defaulting to 0.
* The CPython global PRNG (random.seed / random.uniform, a Mersenne
  Twister) is modelled as an explicit deterministic generator state
  threaded through the code; random.seed installs a fresh state from the
  given seed.  The exact stream of the model differs from Mersenne
  Twister; no theorem below depends on particular stream values, only on
  determinism of the stream as a function of the seed.
* The builtin hash on str, deterministic within one CPython process, is
  modelled as a fixed deterministic polynomial hash.
* The builtin float(str) conversion is modelled as a parser for sign,
  decimal mantissa and optional exponent, returning none where CPython
  raises ValueError.  The inf and nan spellings, which have no rational
  value, and underscore digit grouping are not modelled.
-/

namespace PromptEvalLab

/-! Python string primitives, modelled from the CPython runtime. -/

/-- Whitespace characters recognised by str.split and str.strip
    (ASCII subset). -/
def isPySpace (c : Char) : Bool :=
  c = ' ' || c = '\t' || c = '\n' || c = '\r' || c = '\x0b' || c = '\x0c'

/-- Models str.strip with no arguments: drop whitespace from both ends. -/
def pyStrip (s : String) : String :=
  String.mk (((s.toList.dropWhile isPySpace).reverse.dropWhile isPySpace).reverse)

/-- Models str.lower for the ASCII range. -/
def pyLower (s : String) : String :=
  String.mk (s.toList.map Char.toLower)

/-- Helper for pySplitWS: accumulates the current word in reverse. -/
def pySplitWSAux : List Char → List Char → List String
  | [], acc => if acc.isEmpty then [] else [String.mk acc.reverse]
  | c :: cs, acc =>
    if isPySpace c then
      if acc.isEmpty then pySplitWSAux cs []
      else String.mk acc.reverse :: pySplitWSAux cs []
    else pySplitWSAux cs (c :: acc)

/-- Models str.split with no arguments: split on whitespace runs,
    discarding empty pieces. -/
def pySplitWS (s : String) : List String :=
  pySplitWSAux s.toList []

/-- Helper for splitOnChar: accumulates the current piece in reverse. -/
def splitOnCharAux (sep : Char) : List Char → List Char → List String
  | [], acc => [String.mk acc.reverse]
  | c :: cs, acc =>
    if c = sep then String.mk acc.reverse :: splitOnCharAux sep cs []
    else splitOnCharAux sep cs (c :: acc)

/-- Models str.split(sep) for a one-character separator, keeping empty
    pieces, as used with the newline and colon separators in
    evaluator.py. -/
def splitOnChar (sep : Char) (s : String) : List String :=
  splitOnCharAux sep s.toList []

/-- Helper for strStartsWith over character lists. -/
def listStarts : List Char → List Char → Bool
  | [], _ => true
  | _ :: _, [] => false
  | p :: ps, c :: cs => p == c && listStarts ps cs

/-- Models str.startswith(pat). -/
def strStartsWith (s pat : String) : Bool :=
  listStarts pat.toList s.toList

/-- Decimal value of a digit list, most significant first. -/
def decVal (l : List Char) : Nat :=
  l.foldl (fun n c => n * 10 + (c.toNat - 48)) 0

/-- True when every character is an ASCII digit. -/
def allDigits (l : List Char) : Bool :=
  l.all Char.isDigit

/-- Parses an unsigned decimal mantissa: digits with at most one dot and
    at least one digit overall. -/
def parseDecimal (cs : List Char) : Option Rat :=
  let ip := cs.takeWhile (fun c => c != '.')
  let rest := cs.drop ip.length
  match rest with
  | [] => if allDigits ip && !ip.isEmpty then some (decVal ip) else none
  | _ :: fp =>
    if allDigits ip && allDigits fp && !(ip.isEmpty && fp.isEmpty) then
      some ((decVal ip : Rat) + (decVal fp : Rat) / 10 ^ fp.length)
    else none

/-- Parses a mantissa with optional exponent part, both unsigned apart
    from the exponent sign. -/
def parseUnsignedFloat (cs : List Char) : Option Rat :=
  let mant := cs.takeWhile (fun c => c != 'e' && c != 'E')
  let rest := cs.drop mant.length
  match parseDecimal mant, rest with
  | some m, [] => some m
  | some m, _ :: es =>
    let se : Int × List Char :=
      match es with
      | '+' :: t => (1, t)
      | '-' :: t => (-1, t)
      | t => (1, t)
    if !se.2.isEmpty && allDigits se.2 then
      some (if se.1 = 1 then m * 10 ^ decVal se.2 else m / 10 ^ decVal se.2)
    else none
  | none, _ => none

/-- Models the builtin float(str) on already stripped input, returning
    none where CPython raises ValueError; see the module comment for the
    modelled grammar. -/
def pyFloat (s : String) : Option Rat :=
  match s.toList with
  | [] => none
  | '+' :: t => parseUnsignedFloat t
  | '-' :: t => (parseUnsignedFloat t).map Neg.neg
  | cs => parseUnsignedFloat cs

/-! Embedding of src/metrics.py. -/

/-- A score dictionary: metric name to value, as an association list. -/
abbrev ScoreVec := List (String × Rat)

/-- Models dict.get(key, 0.0) on a score dictionary. -/
def svGet (s : ScoreVec) (key : String) : Rat :=
  match s.find? (fun p => p.1 == key) with
  | some p => p.2
  | none => 0

/-- Word set of a text: set(text.lower().split()) from the sources,
    modelled as a duplicate-free list. -/
def wordSet (s : String) : List String :=
  (pySplitWS (pyLower s)).dedup

/-- Size of the intersection of two word sets; the first argument is
    duplicate free. -/
def interCount (a b : List String) : Nat :=
  (a.filter (fun w => b.contains w)).length

/-- MetricsCalculator.token_overlap_f1 from src/metrics.py. -/
def token_overlap_f1 (predicted reference : String) : Rat :=
  let pred_tokens := wordSet predicted
  let ref_tokens := wordSet reference
  if pred_tokens.length == 0 || ref_tokens.length == 0 then 0
  else
    let common := pred_tokens.filter (fun t => ref_tokens.contains t)
    if common.length == 0 then 0
    else
      let precision : Rat := (common.length : Rat) / (pred_tokens.length : Rat)
      let recallScore : Rat := (common.length : Rat) / (ref_tokens.length : Rat)
      2 * (precision * recallScore) / (precision + recallScore)

/-- Union of the metric keys of all score vectors, as collected by the
    loop in MetricsCalculator.aggregate_scores. -/
def metricKeys (scores : List ScoreVec) : List String :=
  (scores.flatMap (fun s => s.map Prod.fst)).dedup

/-- Mean of a list of rationals, as np.mean on a nonempty list. -/
def listMean (l : List Rat) : Rat :=
  l.sum / (l.length : Rat)

/-- Minimum of a list of rationals, as np.min on a nonempty list. -/
def listMin : List Rat → Rat
  | [] => 0
  | x :: xs => xs.foldl min x

/-- Maximum of a list of rationals, as np.max on a nonempty list. -/
def listMax : List Rat → Rat
  | [] => 0
  | x :: xs => xs.foldl max x

/-- MetricsCalculator.aggregate_scores from src/metrics.py. -/
def aggregate_scores (scores : List ScoreVec) : ScoreVec :=
  if scores.isEmpty then []
  else
    (metricKeys scores).flatMap (fun key =>
      [(key ++ "_mean", listMean (scores.map (fun s => svGet s key))),
       (key ++ "_min", listMin (scores.map (fun s => svGet s key))),
       (key ++ "_max", listMax (scores.map (fun s => svGet s key)))])

/-! Embedding of src/evaluator.py. -/

/-- The score dictionary returned by the evaluator; the Python code
    always populates exactly these three keys. -/
structure JudgeScores where
  accuracy : Rat
  faithfulness : Rat
  completeness : Rat
  deriving DecidableEq

/-- Models the process-deterministic builtin hash on str; see the module
    comment. -/
def pyHash (s : String) : Nat :=
  s.toList.foldl (fun h c => (h * 1000003 + c.toNat) % 2 ^ 64) 5381

/-- State of the modelled global PRNG; see the module comment. -/
structure RandomState where
  seed : Nat
  counter : Nat
  deriving DecidableEq

/-- Models random.seed(n): install a fresh generator state. -/
def randomSeed (n : Nat) : RandomState := ⟨n, 0⟩

/-- Raw 32-bit output of the modelled generator at its current state. -/
def randomBits (st : RandomState) : Nat :=
  (st.seed * 2654435761 + st.counter * 40503 + 12345) % 2 ^ 32

/-- Models random.random(): a value in [0, 1) plus the advanced state. -/
def randomUnit (st : RandomState) : Rat × RandomState :=
  ((randomBits st : Rat) / 2 ^ 32, ⟨st.seed, st.counter + 1⟩)

/-- Models random.uniform(a, b) = a + (b - a) * random.random(). -/
def randomUniform (a b : Rat) (st : RandomState) : Rat × RandomState :=
  ((a + (b - a) * (randomUnit st).1), (randomUnit st).2)

/-- The length comparison heuristic of LLMEvaluator._mock_evaluate:
    0.5 + 0.3 * min(len(output), len(reference)) / max(len(output), len(reference), 1). -/
def length_score (output reference : String) : Rat :=
  1/2 + ((min output.length reference.length : Nat) : Rat)
      / ((max output.length (max reference.length 1) : Nat) : Rat) * (3/10)

/-- The keyword overlap heuristic of LLMEvaluator._mock_evaluate:
    0.4 + 0.5 * |ref words ∩ out words| / |ref words|, 0 overlap when the
    reference has no words. -/
def keyword_score (output reference : String) : Rat :=
  let ref_words := wordSet reference
  let out_words := wordSet output
  let overlap : Rat :=
    if ref_words.isEmpty then 0
    else (interCount ref_words out_words : Rat) / (ref_words.length : Rat)
  2/5 + overlap * (1/2)

/-- The length penalty of LLMEvaluator._mock_evaluate: 0.3 below 5
    characters, 0.1 beyond three times the reference length. -/
def length_penalty (output reference : String) : Rat :=
  if output.length < 5 then 3/10
  else if output.length > reference.length * 3 then 1/10
  else 0

/-- The echo penalty of LLMEvaluator._mock_evaluate: 0.05 when the
    output covers more than 70 percent of the question words. -/
def echo_penalty (output question : String) : Rat :=
  let question_words := wordSet question
  let out_words := wordSet output
  if (interCount question_words out_words : Rat)
      > (question_words.length : Rat) * (7/10) then 1/20
  else 0

/-- The clamped base accuracy of LLMEvaluator._mock_evaluate. -/
def base_accuracy (output reference : String) : Rat :=
  max (2/5) (min (19/20)
    ((length_score output reference + keyword_score output reference) / 2
      - length_penalty output reference))

/-- The generator state installed by random.seed(hash(output + reference) % 10000)
    at the top of LLMEvaluator._mock_evaluate. -/
def mockSeedState (output reference : String) : RandomState :=
  randomSeed (pyHash (output ++ reference) % 10000)

/-- First uniform draw of _mock_evaluate, random.uniform(-0.05, 0.05). -/
def jitter_accuracy (output reference : String) : Rat :=
  (randomUniform (-(1/20)) (1/20) (mockSeedState output reference)).1

/-- Second uniform draw of _mock_evaluate, random.uniform(-0.08, 0.08). -/
def jitter_faithfulness (output reference : String) : Rat :=
  (randomUniform (-(2/25)) (2/25)
    (randomUniform (-(1/20)) (1/20) (mockSeedState output reference)).2).1

/-- Third uniform draw of _mock_evaluate, random.uniform(-0.1, 0.1). -/
def jitter_completeness (output reference : String) : Rat :=
  (randomUniform (-(1/10)) (1/10)
    (randomUniform (-(2/25)) (2/25)
      (randomUniform (-(1/20)) (1/20) (mockSeedState output reference)).2).2).1

/-- LLMEvaluator._mock_evaluate from src/evaluator.py.  The incoming
    global generator state is the first argument; the function reseeds
    it from hash(output + reference) % 10000 before drawing, and the
    advanced state is returned alongside the scores. -/
def mock_evaluate (rng : RandomState) (output reference question : String) :
    JudgeScores × RandomState :=
  let st0 := mockSeedState output reference
  let u1 := randomUniform (-(1/20)) (1/20) st0
  let u2 := randomUniform (-(2/25)) (2/25) u1.2
  let u3 := randomUniform (-(1/10)) (1/10) u2.2
  let accuracy := base_accuracy output reference + u1.1
  let faithfulness := base_accuracy output reference + u2.1
      - echo_penalty output question
  let completeness := keyword_score output reference + u3.1
  (⟨max (3/10) (min 1 accuracy),
    max (3/10) (min 1 faithfulness),
    max (3/10) (min 1 completeness)⟩, u3.2)

/-- The numeric value extracted from a judge response line: element 1 of
    the colon split of the stripped lowered line, stripped and converted
    by float; none when CPython would raise. -/
def lineValue (line : String) : Option Rat :=
  match splitOnChar ':' (pyLower (pyStrip line)) with
  | _ :: v :: _ => pyFloat (pyStrip v)
  | _ => none

/-- One iteration of the line loop in LLMEvaluator._parse_scores. -/
def parseLine (scores : JudgeScores) (line : String) : JudgeScores :=
  let l := pyLower (pyStrip line)
  if strStartsWith l "accuracy:" then
    match lineValue line with
    | some v => { scores with accuracy := v }
    | none => scores
  else if strStartsWith l "faithfulness:" then
    match lineValue line with
    | some v => { scores with faithfulness := v }
    | none => scores
  else if strStartsWith l "completeness:" then
    match lineValue line with
    | some v => { scores with completeness := v }
    | none => scores
  else scores

/-- LLMEvaluator._parse_scores from src/evaluator.py: fold the line loop
    over response_text.strip().split(newline), starting from the default
    score dictionary of 0.5 everywhere. -/
def parse_scores (response_text : String) : JudgeScores :=
  (splitOnChar '\n' (pyStrip response_text)).foldl parseLine ⟨1/2, 1/2, 1/2⟩

/-- LLMEvaluator.evaluate_response from src/evaluator.py.  The external
    judge call is modelled as an oracle argument: hasClient mirrors
    whether self.client is set, and judgeReply carries the judge
    response text, none standing for any exception of the external call
    (which the code maps to the fixed default 0.5 vector). -/
def evaluate_response (hasClient : Bool) (rng : RandomState)
    (judgeReply : Option String) (question model_output reference_answer : String)
    (context : Option String) : JudgeScores :=
  if !hasClient then
    (mock_evaluate rng model_output reference_answer question).1
  else
    match judgeReply with
    | some text => parse_scores text
    | none => ⟨1/2, 1/2, 1/2⟩

/-- Records whether a line would overwrite the accuracy field in
    _parse_scores. -/
def setsAccuracy (line : String) : Bool :=
  strStartsWith (pyLower (pyStrip line)) "accuracy:" && (lineValue line).isSome

/-- Records whether a line would overwrite the faithfulness field in
    _parse_scores. -/
def setsFaithfulness (line : String) : Bool :=
  strStartsWith (pyLower (pyStrip line)) "faithfulness:" && (lineValue line).isSome

/-- Records whether a line would overwrite the completeness field in
    _parse_scores. -/
def setsCompleteness (line : String) : Bool :=
  strStartsWith (pyLower (pyStrip line)) "completeness:" && (lineValue line).isSome

/-- True when the numeric value a line would contribute, if any, lies in
    the unit interval. -/
def lineValueInRange (line : String) : Bool :=
  match lineValue line with
  | some v => decide (0 ≤ v ∧ v ≤ 1)
  | none => true

/-- All three parsed scores lie in the unit interval. -/
def scoreBounds (s : JudgeScores) : Prop :=
  0 ≤ s.accuracy ∧ s.accuracy ≤ 1 ∧ 0 ≤ s.faithfulness ∧ s.faithfulness ≤ 1
    ∧ 0 ≤ s.completeness ∧ s.completeness ≤ 1

instance (s : JudgeScores) : Decidable (scoreBounds s) := by
  unfold scoreBounds; infer_instance

/-! Embedding of src/leaderboard.py. -/

/-- One stored evaluation result, restricted to the fields the
    leaderboard reads. -/
structure EvaluationResult where
  prompt_name : String
  aggregate_scores : ScoreVec
  deriving DecidableEq

/-- One leaderboard row as built by Leaderboard.get_leaderboard_data. -/
structure LeaderboardEntry where
  prompt_name : String
  overall_score : Rat
  semantic_similarity : Rat
  accuracy : Rat
  faithfulness : Rat
  completeness : Rat
  f1_score : Rat
  exact_match : Rat
  rank : Nat
  deriving DecidableEq

/-- The weighted overall score computed in Leaderboard.get_leaderboard_data. -/
def overallScore (agg : ScoreVec) : Rat :=
  svGet agg "semantic_similarity_mean" * (3/10) +
  svGet agg "accuracy_mean" * (2/5) +
  svGet agg "faithfulness_mean" * (1/5) +
  svGet agg "completeness_mean" * (1/10)

/-- The leaderboard row built for one stored result, before ranking. -/
def entryOf (result : EvaluationResult) : LeaderboardEntry :=
  { prompt_name := result.prompt_name
    overall_score := overallScore result.aggregate_scores
    semantic_similarity := svGet result.aggregate_scores "semantic_similarity_mean"
    accuracy := svGet result.aggregate_scores "accuracy_mean"
    faithfulness := svGet result.aggregate_scores "faithfulness_mean"
    completeness := svGet result.aggregate_scores "completeness_mean"
    f1_score := svGet result.aggregate_scores "f1_score_mean"
    exact_match := svGet result.aggregate_scores "exact_match_mean"
    rank := 0 }

/-- The stable descending sort by overall_score performed by
    list.sort(key=..., reverse=True); modelled by the stable mergeSort
    with the reversed comparison. -/
def sortLB (l : List LeaderboardEntry) : List LeaderboardEntry :=
  l.mergeSort (fun a b => decide (b.overall_score ≤ a.overall_score))

/-- The rank assignment loop: enumerate(leaderboard, 1). -/
def assignRanks : Nat → List LeaderboardEntry → List LeaderboardEntry
  | _, [] => []
  | i, e :: es => { e with rank := i } :: assignRanks (i + 1) es

/-- Leaderboard.get_leaderboard_data from src/leaderboard.py, as a
    function of the loaded results. -/
def get_leaderboard_data (results : List EvaluationResult) : List LeaderboardEntry :=
  assignRanks 1 (sortLB (results.map entryOf))


/-! Helper lemmas about the line loop of _parse_scores. -/

/-- A line that does not set the accuracy field leaves it unchanged. -/
theorem parseLine_accuracy_of_not_sets (s : JudgeScores) (line : String)
    (h : setsAccuracy line = false) : (parseLine s line).accuracy = s.accuracy := by
  unfold parseLine
  repeat' split <;> simp_all [setsAccuracy]

/-- A line that does not set the faithfulness field leaves it unchanged. -/
theorem parseLine_faithfulness_of_not_sets (s : JudgeScores) (line : String)
    (h : setsFaithfulness line = false) :
    (parseLine s line).faithfulness = s.faithfulness := by
  unfold parseLine
  repeat' split <;> simp_all [setsFaithfulness]

/-- A line that does not set the completeness field leaves it unchanged. -/
theorem parseLine_completeness_of_not_sets (s : JudgeScores) (line : String)
    (h : setsCompleteness line = false) :
    (parseLine s line).completeness = s.completeness := by
  unfold parseLine
  repeat' split <;> simp_all [setsCompleteness]

/-- Folding the line loop over lines none of which set accuracy leaves
    the accuracy field unchanged. -/
theorem foldl_parseLine_accuracy :
    ∀ (lines : List String) (s : JudgeScores),
      (∀ line ∈ lines, setsAccuracy line = false) →
      (lines.foldl parseLine s).accuracy = s.accuracy
  | [], _, _ => rfl
  | l :: ls, s, h => by
    rw [List.foldl_cons,
      foldl_parseLine_accuracy ls _ (fun x hx => h x (List.mem_cons_of_mem _ hx)),
      parseLine_accuracy_of_not_sets s l (h l (List.mem_cons_self _ _))]

/-- Folding the line loop over lines none of which set faithfulness
    leaves the faithfulness field unchanged. -/
theorem foldl_parseLine_faithfulness :
    ∀ (lines : List String) (s : JudgeScores),
      (∀ line ∈ lines, setsFaithfulness line = false) →
      (lines.foldl parseLine s).faithfulness = s.faithfulness
  | [], _, _ => rfl
  | l :: ls, s, h => by
    rw [List.foldl_cons,
      foldl_parseLine_faithfulness ls _ (fun x hx => h x (List.mem_cons_of_mem _ hx)),
      parseLine_faithfulness_of_not_sets s l (h l (List.mem_cons_self _ _))]

/-- Folding the line loop over lines none of which set completeness
    leaves the completeness field unchanged. -/
theorem foldl_parseLine_completeness :
    ∀ (lines : List String) (s : JudgeScores),
      (∀ line ∈ lines, setsCompleteness line = false) →
      (lines.foldl parseLine s).completeness = s.completeness
  | [], _, _ => rfl
  | l :: ls, s, h => by
    rw [List.foldl_cons,
      foldl_parseLine_completeness ls _ (fun x hx => h x (List.mem_cons_of_mem _ hx)),
      parseLine_completeness_of_not_sets s l (h l (List.mem_cons_self _ _))]

/-- One line whose contributed value, if any, lies in the unit interval
    preserves unit-interval bounds of all three fields. -/
theorem parseLine_scoreBounds (s : JudgeScores) (line : String)
    (h : lineValueInRange line = true) (hs : scoreBounds s) :
    scoreBounds (parseLine s line) := by
  unfold scoreBounds at hs ⊢
  unfold lineValueInRange at h
  unfold parseLine
  repeat' split <;> simp_all

/-- Folding the line loop over lines whose contributed values lie in the
    unit interval preserves unit-interval bounds. -/
theorem foldl_parseLine_scoreBounds :
    ∀ (lines : List String) (s : JudgeScores),
      (∀ line ∈ lines, lineValueInRange line = true) →
      scoreBounds s → scoreBounds (lines.foldl parseLine s)
  | [], _, _, hs => hs
  | l :: ls, s, h, hs => by
    rw [List.foldl_cons]
    exact foldl_parseLine_scoreBounds ls _ (fun x hx => h x (List.mem_cons_of_mem _ hx))
      (parseLine_scoreBounds s l (h l (List.mem_cons_self _ _)) hs)

/-- The default score dictionary lies in the unit interval. -/
theorem scoreBounds_default : scoreBounds ⟨1/2, 1/2, 1/2⟩ := by
  unfold scoreBounds
  norm_num

/-- C7 (confirmed).  Judge-response parsing never raises (the embedding
    is a total function) and degrades field-by-field: the well-formed
    response yields exactly 0.95, 0.90, 0.85, and whenever no line of
    the input contributes a parsable numeric value for a key, that key
    keeps the default 0.5. -/
theorem parse_scores_line_by_line :
    (parse_scores "Accuracy: 0.95\nFaithfulness: 0.90\nCompleteness: 0.85"
        = ⟨19/20, 9/10, 17/20⟩) ∧
    ∀ response_text : String,
      ((∀ line ∈ splitOnChar '\n' (pyStrip response_text), setsAccuracy line = false) →
        (parse_scores response_text).accuracy = 1/2) ∧
      ((∀ line ∈ splitOnChar '\n' (pyStrip response_text), setsFaithfulness line = false) →
        (parse_scores response_text).faithfulness = 1/2) ∧
      ((∀ line ∈ splitOnChar '\n' (pyStrip response_text), setsCompleteness line = false) →
        (parse_scores response_text).completeness = 1/2) := by
  constructor
  · with_unfolding_all decide
  · intro response_text
    refine ⟨fun h => ?_, fun h => ?_, fun h => ?_⟩
    · exact foldl_parseLine_accuracy _ _ h
    · exact foldl_parseLine_faithfulness _ _ h
    · exact foldl_parseLine_completeness _ _ h

/-- Witness for C7 at the unrelated input string. -/
theorem parse_scores_line_by_line_witness :
    (parse_scores "This is unrelated text").accuracy = 1/2 ∧
    (parse_scores "This is unrelated text").faithfulness = 1/2 ∧
    (parse_scores "This is unrelated text").completeness = 1/2 :=
  ⟨(parse_scores_line_by_line.2 "This is unrelated text").1 (by decide),
   (parse_scores_line_by_line.2 "This is unrelated text").2.1 (by decide),
   (parse_scores_line_by_line.2 "This is unrelated text").2.2 (by decide)⟩

/-- C1 (corrected).  The parsed score dictionary always carries the
    three keys (structurally, as the JudgeScores record), and each value
    lies in [0,1] provided every numeric value the response contributes
    lies in [0,1]; an out-of-range value in the response is passed
    through unclamped, refuting the unconditional claim. -/
theorem evaluate_response_parsed_in_unit_range :
    ∀ (st : RandomState) (question model_output reference_answer : String)
      (context : Option String) (response_text : String),
      (∀ line ∈ splitOnChar '\n' (pyStrip response_text),
          lineValueInRange line = true) →
      scoreBounds (evaluate_response true st (some response_text)
        question model_output reference_answer context) := by
  intro st question model_output reference_answer context response_text h
  show scoreBounds (parse_scores response_text)
  exact foldl_parseLine_scoreBounds _ _ h scoreBounds_default

/-- Witness for C1 at a compliant judge response. -/
theorem evaluate_response_parsed_in_unit_range_witness :
    scoreBounds (evaluate_response true (randomSeed 0)
      (some "Accuracy: 0.95\nFaithfulness: 0.90\nCompleteness: 0.85")
      "q" "out" "ref" none) :=
  evaluate_response_parsed_in_unit_range (randomSeed 0) "q" "out" "ref" none
    "Accuracy: 0.95\nFaithfulness: 0.90\nCompleteness: 0.85"
    (by with_unfolding_all decide)

/-- Counterexample for C1 as stated: a judge response with the value 2.0
    yields a parsed accuracy outside [0,1]. -/
theorem evaluate_response_parsed_out_of_range :
    ¬ scoreBounds (evaluate_response true (randomSeed 0) (some "Accuracy: 2.0")
      "q" "out" "ref" none) := by
  with_unfolding_all decide

/-! Claims about the Mock Judge. -/

/-- C3 (confirmed).  The Mock Judge is deterministic: the scores do not
    depend on the incoming global generator state, because the function
    reseeds from hash(output + reference) before drawing; hence two
    calls with identical arguments return identical scores. -/
theorem mock_evaluate_deterministic :
    ∀ (st1 st2 : RandomState) (output reference question : String),
      (mock_evaluate st1 output reference question).1
        = (mock_evaluate st2 output reference question).1 :=
  fun _ _ _ _ _ => rfl

/-- C4 (corrected).  The final accuracy is base accuracy plus the first
    seeded jitter, the final completeness is keyword score plus the third
    seeded jitter, each clamped to [0.3, 1]; the final faithfulness is
    base accuracy plus the second seeded jitter MINUS the echo penalty,
    then clamped — the claim omitted the echo penalty subtraction. -/
theorem mock_evaluate_score_formulas :
    ∀ (st : RandomState) (output reference question : String),
      ((mock_evaluate st output reference question).1.accuracy
          = max (3/10) (min 1
              (base_accuracy output reference + jitter_accuracy output reference))) ∧
      ((mock_evaluate st output reference question).1.faithfulness
          = max (3/10) (min 1
              (base_accuracy output reference + jitter_faithfulness output reference
                - echo_penalty output question))) ∧
      ((mock_evaluate st output reference question).1.completeness
          = max (3/10) (min 1
              (keyword_score output reference + jitter_completeness output reference))) :=
  fun _ _ _ _ => ⟨rfl, rfl, rfl⟩

set_option maxRecDepth 100000 in
/-- Counterexample for C4 as stated: at an input with a nonzero echo
    penalty, the faithfulness score differs from base accuracy plus the
    seeded jitter clamped to the range. -/
theorem mock_evaluate_faithfulness_uses_echo_penalty :
    (mock_evaluate (randomSeed 0) "paris is the capital of france"
        "paris is the capital" "paris is the capital").1.faithfulness
      ≠ max (3/10) (min 1
          (base_accuracy "paris is the capital of france" "paris is the capital"
            + jitter_faithfulness "paris is the capital of france" "paris is the capital")) := by
  with_unfolding_all decide

/-- C8 (confirmed).  Every score returned by the Mock Judge lies in the
    closed interval [0.3, 1]. -/
theorem mock_evaluate_scores_in_range :
    ∀ (st : RandomState) (output reference question : String),
      ((3:Rat)/10 ≤ (mock_evaluate st output reference question).1.accuracy
        ∧ (mock_evaluate st output reference question).1.accuracy ≤ 1) ∧
      ((3:Rat)/10 ≤ (mock_evaluate st output reference question).1.faithfulness
        ∧ (mock_evaluate st output reference question).1.faithfulness ≤ 1) ∧
      ((3:Rat)/10 ≤ (mock_evaluate st output reference question).1.completeness
        ∧ (mock_evaluate st output reference question).1.completeness ≤ 1) := by
  intro st output reference question
  refine ⟨⟨le_max_left _ _, max_le (by norm_num) (min_le_left _ _)⟩,
    ⟨le_max_left _ _, max_le (by norm_num) (min_le_left _ _)⟩,
    ⟨le_max_left _ _, max_le (by norm_num) (min_le_left _ _)⟩⟩

/-- C10 (confirmed).  The accuracy and completeness scores of the Mock
    Judge do not depend on the question argument; only the faithfulness
    score reads it, through the echo penalty. -/
theorem mock_evaluate_question_independent :
    ∀ (st : RandomState) (output reference q1 q2 : String),
      ((mock_evaluate st output reference q1).1.accuracy
        = (mock_evaluate st output reference q2).1.accuracy) ∧
      ((mock_evaluate st output reference q1).1.completeness
        = (mock_evaluate st output reference q2).1.completeness) :=
  fun _ _ _ _ _ => ⟨rfl, rfl⟩

/-! Claims about the metrics module. -/

/-- C9 (corrected, theorem).  Token overlap F1 of a text with itself is
    1 whenever the text has at least one whitespace-separated token; a
    non-empty all-whitespace string has no tokens and scores 0, refuting
    the claim for arbitrary non-empty strings. -/
theorem token_overlap_f1_self :
    ∀ a : String, wordSet a ≠ [] → token_overlap_f1 a a = 1 := by
  intro a h
  have hn : (wordSet a).length ≠ 0 := by simpa [List.length_eq_zero] using h
  have hq : ((wordSet a).length : Rat) ≠ 0 := Nat.cast_ne_zero.mpr hn
  have hcom : (wordSet a).filter (fun t => (wordSet a).contains t) = wordSet a :=
    List.filter_eq_self.mpr (fun t ht => by simpa using ht)
  unfold token_overlap_f1
  simp only [hcom]
  have hb : ((wordSet a).length == 0) = false := by
    simpa using hn
  simp only [hb, Bool.or_self, Bool.false_eq_true, if_false]
  rw [div_self hq]
  norm_num

/-- Counterexample for C9 as stated: the one-space string is a non-empty
    string whose self F1 is 0, not 1. -/
theorem token_overlap_f1_whitespace_self :
    (" " : String) ≠ "" ∧ token_overlap_f1 " " " " ≠ 1 := by
  constructor
  · decide
  · with_unfolding_all decide

/-- Witness for C9 at a one-token string. -/
theorem token_overlap_f1_self_witness : token_overlap_f1 "paris" "paris" = 1 :=
  token_overlap_f1_self "paris" (by decide)

/-- C2 (confirmed).  Aggregation of the empty list is the empty mapping;
    for a non-empty list the output keys are exactly the mean, min and
    max keys over the union of the metric keys, and for each metric the
    values are the mean, minimum and maximum over all vectors with a
    missing key contributing 0. -/
theorem aggregate_scores_spec :
    aggregate_scores [] = [] ∧
    ∀ scores : List ScoreVec, scores ≠ [] →
      ((aggregate_scores scores).map Prod.fst
          = (metricKeys scores).flatMap
              (fun k => [k ++ "_mean", k ++ "_min", k ++ "_max"])) ∧
      (∀ k : String, k ∈ metricKeys scores ↔ ∃ s ∈ scores, k ∈ s.map Prod.fst) ∧
      (∀ k ∈ metricKeys scores,
        ((k ++ "_mean", listMean (scores.map (fun s => svGet s k)))
            ∈ aggregate_scores scores) ∧
        ((k ++ "_min", listMin (scores.map (fun s => svGet s k)))
            ∈ aggregate_scores scores) ∧
        ((k ++ "_max", listMax (scores.map (fun s => svGet s k)))
            ∈ aggregate_scores scores)) := by
  refine ⟨rfl, ?_⟩
  intro scores hne
  have hE : scores.isEmpty = false := by
    cases scores with
    | nil => exact absurd rfl hne
    | cons a l => rfl
  have hagg : aggregate_scores scores = (metricKeys scores).flatMap (fun key =>
      [(key ++ "_mean", listMean (scores.map (fun s => svGet s key))),
       (key ++ "_min", listMin (scores.map (fun s => svGet s key))),
       (key ++ "_max", listMax (scores.map (fun s => svGet s key)))]) := by
    simp [aggregate_scores, hE]
  refine ⟨?_, ?_, ?_⟩
  · rw [hagg, List.map_flatMap]
    simp
  · intro k
    simp [metricKeys, List.mem_dedup, List.mem_flatMap]
  · intro k hk
    rw [hagg]
    exact ⟨List.mem_flatMap.mpr ⟨k, hk, by simp⟩,
      List.mem_flatMap.mpr ⟨k, hk, by simp⟩,
      List.mem_flatMap.mpr ⟨k, hk, by simp⟩⟩

/-- Witness for C2 at the one-vector list of the spec example. -/
theorem aggregate_scores_spec_witness :
    (("accuracy" ++ "_mean",
        listMean ([[("accuracy", (4/5 : Rat))]].map (fun s => svGet s "accuracy")))
      ∈ aggregate_scores [[("accuracy", (4/5 : Rat))]]) ∧
    listMean ([[("accuracy", (4/5 : Rat))]].map (fun s => svGet s "accuracy")) = 4/5 :=
  ⟨((aggregate_scores_spec.2 [[("accuracy", (4/5 : Rat))]] (by decide)).2.2 "accuracy"
      (by decide)).1,
   by with_unfolding_all decide⟩

/-! Helper lemmas about rank assignment. -/

/-- Ranks assigned by the enumerate loop are consecutive from the start
    index. -/
theorem assignRanks_map_rank :
    ∀ (l : List LeaderboardEntry) (i : Nat),
      (assignRanks i l).map (fun e => e.rank) = List.range' i l.length
  | [], _ => rfl
  | e :: es, i => by
    simpa [assignRanks, List.range'] using assignRanks_map_rank es (i + 1)

/-- Rank assignment does not change the overall scores. -/
theorem assignRanks_map_overall :
    ∀ (l : List LeaderboardEntry) (i : Nat),
      (assignRanks i l).map (fun e => e.overall_score)
        = l.map (fun e => e.overall_score)
  | [], _ => rfl
  | e :: es, i => by
    simp [assignRanks, assignRanks_map_overall es (i + 1)]

/-- Every entry survives rank assignment with its name and overall score
    unchanged. -/
theorem assignRanks_mem :
    ∀ (l : List LeaderboardEntry) (i : Nat) (e : LeaderboardEntry), e ∈ l →
      ∃ e2 ∈ assignRanks i l,
        e2.prompt_name = e.prompt_name ∧ e2.overall_score = e.overall_score
  | [], _, _, h => absurd h (List.not_mem_nil _)
  | a :: l, i, e, h => by
    rcases List.mem_cons.mp h with rfl | h2
    · exact ⟨{ e with rank := i }, List.mem_cons_self _ _, rfl, rfl⟩
    · obtain ⟨e2, hm, hn, ho⟩ := assignRanks_mem l (i + 1) e h2
      exact ⟨e2, List.mem_cons_of_mem _ hm, hn, ho⟩

/-- C5 (corrected, theorem).  Every stored result appears on the
    leaderboard with overall score 0.3 semantic similarity mean plus 0.4
    accuracy mean plus 0.2 faithfulness mean plus 0.1 completeness mean,
    absent means contributing 0; the spec example aggregate yields 0.8,
    not the claimed 0.74 (the claimed sum dropped the 0.1 times 0.6
    completeness term). -/
theorem get_leaderboard_data_overall_score :
    (∀ (results : List EvaluationResult), ∀ r ∈ results,
      ∃ e ∈ get_leaderboard_data results,
        e.prompt_name = r.prompt_name ∧
        e.overall_score =
          (3/10) * svGet r.aggregate_scores "semantic_similarity_mean"
            + (2/5) * svGet r.aggregate_scores "accuracy_mean"
            + (1/5) * svGet r.aggregate_scores "faithfulness_mean"
            + (1/10) * svGet r.aggregate_scores "completeness_mean") ∧
    overallScore [("semantic_similarity_mean", 4/5), ("accuracy_mean", 9/10),
      ("faithfulness_mean", 7/10), ("completeness_mean", 3/5)] = 4/5 := by
  constructor
  · intro results r hr
    have h1 : entryOf r ∈ sortLB (results.map entryOf) := by
      unfold sortLB
      rw [List.mem_mergeSort]
      exact List.mem_map_of_mem entryOf hr
    obtain ⟨e2, hm, hname, hov⟩ := assignRanks_mem _ 1 _ h1
    refine ⟨e2, hm, hname, ?_⟩
    rw [hov]
    show overallScore r.aggregate_scores = _
    unfold overallScore
    ring
  · with_unfolding_all decide

/-- Witness for C5 at a one-result store. -/
theorem get_leaderboard_data_overall_score_witness :
    ∃ e ∈ get_leaderboard_data
        [(⟨"baseline", [("accuracy_mean", (1/2 : Rat))]⟩ : EvaluationResult)],
      e.prompt_name = "baseline" ∧
      e.overall_score =
        (3/10) * svGet [("accuracy_mean", (1/2 : Rat))] "semantic_similarity_mean"
          + (2/5) * svGet [("accuracy_mean", (1/2 : Rat))] "accuracy_mean"
          + (1/5) * svGet [("accuracy_mean", (1/2 : Rat))] "faithfulness_mean"
          + (1/10) * svGet [("accuracy_mean", (1/2 : Rat))] "completeness_mean" :=
  get_leaderboard_data_overall_score.1 _ _ (List.mem_singleton.mpr rfl)

/-- Counterexample for C5 as stated: the spec example aggregate does not
    yield 0.74. -/
theorem overall_score_example_is_not_074 :
    overallScore [("semantic_similarity_mean", 4/5), ("accuracy_mean", 9/10),
      ("faithfulness_mean", 7/10), ("completeness_mean", 3/5)] ≠ 37/50 := by
  with_unfolding_all decide

/-- C6 (confirmed).  The leaderboard ranks are exactly 1..n, the listed
    overall scores are descending, and the sort is stable: a pair of
    entries with equal overall score that appears in input order also
    appears in the sorted output in that order. -/
theorem get_leaderboard_data_sort_spec :
    ∀ results : List EvaluationResult,
      ((get_leaderboard_data results).map (fun e => e.rank)
          = List.range' 1 results.length) ∧
      (((get_leaderboard_data results).map (fun e => e.overall_score)).Pairwise
          (fun a b => b ≤ a)) ∧
      (∀ x y : LeaderboardEntry, x.overall_score = y.overall_score →
        List.Sublist [x, y] (results.map entryOf) →
        List.Sublist [x, y] (sortLB (results.map entryOf))) := by
  intro results
  have htrans : ∀ a b c : LeaderboardEntry,
      decide (b.overall_score ≤ a.overall_score) = true →
      decide (c.overall_score ≤ b.overall_score) = true →
      decide (c.overall_score ≤ a.overall_score) = true := by
    intro a b c h1 h2
    exact decide_eq_true (le_trans (of_decide_eq_true h2) (of_decide_eq_true h1))
  have htotal : ∀ a b : LeaderboardEntry,
      (decide (b.overall_score ≤ a.overall_score)
        || decide (a.overall_score ≤ b.overall_score)) = true := by
    intro a b
    rcases le_total b.overall_score a.overall_score with h | h <;> simp [h]
  refine ⟨?_, ?_, ?_⟩
  · unfold get_leaderboard_data
    rw [assignRanks_map_rank]
    unfold sortLB
    rw [List.length_mergeSort, List.length_map]
  · unfold get_leaderboard_data
    rw [assignRanks_map_overall, List.pairwise_map]
    exact List.Pairwise.imp (fun h => of_decide_eq_true h)
      (List.sorted_mergeSort htrans htotal (results.map entryOf))
  · intro x y hxy hsub
    exact List.pair_sublist_mergeSort htrans htotal
      (decide_eq_true (le_of_eq hxy.symm)) hsub

/-- Witness for C6 at two equal-scoring results. -/
theorem get_leaderboard_data_sort_spec_witness :
    List.Sublist [entryOf ⟨"alpha", []⟩, entryOf ⟨"beta", []⟩]
      (sortLB ([(⟨"alpha", []⟩ : EvaluationResult), ⟨"beta", []⟩].map entryOf)) :=
  (get_leaderboard_data_sort_spec [⟨"alpha", []⟩, ⟨"beta", []⟩]).2.2
    (entryOf ⟨"alpha", []⟩) (entryOf ⟨"beta", []⟩) rfl (List.Sublist.refl _)

end PromptEvalLab
